import Mathlib

/-!
# JetStream stream handle (jsv2/jetstream/stream.go)

A shallow embedding of the `stream` type of the `jetstream` package and of its
methods `CreateConsumer`, `UpdateConsumer`, `Consumer`, `DeleteConsumer`, `Info`,
`CachedInfo`, `Purge`, `GetMsg`, `GetLastMsgForSubject`, `getMsg` and `DeleteMsg`.

Conventions of the embedding.

* A Go result `(*T, error)` is a pair `Option T × Option GoError`; `none` is `nil`.
* Everything that talks to the server is a state-passing function over a
  connection state `σ`; the embedding adds a log of the calls that were issued
  (`Net.log`), so that "no request was issued" is a statement about the log.
* A nil-pointer dereference is the outcome `Outcome.panicked`.
* `uint64` values are natural numbers, byte slices are lists of naturals, and a
  nil slice is the empty list.
* Declarations of the package that live in other files (`getConsumer`,
  `upsertConsumer`, `deleteConsumer`, `apiSubj`, the subject templates,
  `apiRequestJSON`, the JSON encoder and the header decoder) are fields of the
  records `Pkg` and `jetStream`: every theorem holds for all of them.
-/

namespace JetStream

/-- Byte slices. -/
abbrev Bytes := List Nat

/-- The package-level error variables, each created by `errors.New`.
`ErrStreamNotFound`, `ErrInvalidDurableName`, `ErrMsgNotFound` and
`ErrConsumerExists` are declared in stream.go; `ErrConsumerNotFound` and
`ErrMsgDeleteUnsuccessful` are used by stream.go and declared elsewhere in the
package. -/
inductive Sentinel
  | ErrStreamNotFound
  | ErrInvalidDurableName
  | ErrMsgNotFound
  | ErrConsumerExists
  | ErrConsumerNotFound
  | ErrMsgDeleteUnsuccessful
  deriving DecidableEq, Repr

/-- The `error` member of a response envelope (`nats.APIError`). -/
structure APIError where
  Code : Int
  ErrorCode : Nat
  Description : String
  deriving DecidableEq, Repr

/-- Go `error` values that stream.go produces or passes on. -/
inductive GoError
  /-- one of the package-level `errors.New` values -/
  | sentinel (s : Sentinel)
  /-- a response's `*APIError` returned as an error -/
  | api (e : APIError)
  /-- the value of `fmt.Errorf("%w: %s", inner, arg)`, with `arg` already formatted -/
  | wrapf (inner : GoError) (arg : String)
  /-- any other error (transport, context, encoding) -/
  | other (text : String)
  deriving DecidableEq, Repr

/-- The function `errors.Is`: the error or one on its `%w` chain equals the target. -/
def errorsIs : GoError → GoError → Bool
  | .wrapf inner arg, target =>
      if GoError.wrapf inner arg = target then true else errorsIs inner target
  | e, target => decide (e = target)

def ErrStreamNotFound : GoError := .sentinel .ErrStreamNotFound
def ErrInvalidDurableName : GoError := .sentinel .ErrInvalidDurableName
def ErrMsgNotFound : GoError := .sentinel .ErrMsgNotFound
def ErrConsumerExists : GoError := .sentinel .ErrConsumerExists
def ErrConsumerNotFound : GoError := .sentinel .ErrConsumerNotFound
def ErrMsgDeleteUnsuccessful : GoError := .sentinel .ErrMsgDeleteUnsuccessful

/-- What `fmt` prints for a nil `error` under the verb `%s`. -/
def fmtNilError : String := "%!s(<nil>)"

/-- The function `strings.Contains`. Go searches bytes; on valid UTF-8 text
the search for a substring by bytes and by characters agree. -/
def stringsContains (s substr : String) : Bool :=
  decide (substr.data <:+: s.data)

/-- The type `nats.Header`; `none` is the nil map. -/
abbrev Header := Option (List (String × List String))

/-- The fields of `nats.ConsumerConfig`; stream.go reads `Durable` only. -/
structure ConsumerConfig where
  Durable : String
  FilterSubject : String
  DeliverPolicy : Nat
  AckPolicy : Nat
  deriving DecidableEq, Repr

/-- The type `nats.StreamInfo`; stream.go never looks inside it. -/
structure StreamInfo where
  Name : String
  Subjects : List String
  Msgs : Nat
  deriving DecidableEq, Repr

structure RawStreamMsg where
  Subject : String
  Sequence : Nat
  Header : Header
  Data : Bytes
  Time : Nat
  deriving DecidableEq, Repr

structure streamInfoRequest where
  DeletedDetails : Bool
  SubjectFilter : String
  deriving DecidableEq, Repr

structure StreamPurgeRequest where
  Sequence : Nat
  Subject : String
  Keep : Nat
  deriving DecidableEq, Repr

structure apiMsgGetRequest where
  Seq : Nat
  LastFor : String
  deriving DecidableEq, Repr

structure msgDeleteRequest where
  Seq : Nat
  deriving DecidableEq, Repr

/-- The struct `storedMsg`: a raw message stored in JetStream. -/
structure storedMsg where
  Subject : String
  Sequence : Nat
  Header : Bytes
  Data : Bytes
  Time : Nat
  deriving DecidableEq, Repr

/-- The struct `streamInfoResponse`: the envelope's `Error` and the embedded
`*nats.StreamInfo`. -/
structure streamInfoResponse where
  Error : Option APIError
  StreamInfo : Option StreamInfo
  deriving DecidableEq, Repr

structure streamPurgeResponse where
  Error : Option APIError
  Success : Bool
  Purged : Nat
  deriving DecidableEq, Repr

structure apiMsgGetResponse where
  Error : Option APIError
  Message : Option storedMsg
  deriving DecidableEq, Repr

structure msgDeleteResponse where
  Error : Option APIError
  Success : Bool
  deriving DecidableEq, Repr

/-- The option types `StreamInfoOpt` and `StreamPurgeOpt`: a function that
updates the request it is given and may fail. -/
abbrev StreamInfoOpt := streamInfoRequest → streamInfoRequest × Option GoError

abbrev StreamPurgeOpt := StreamPurgeRequest → StreamPurgeRequest × Option GoError

/-- One call that leaves stream.go towards the server. -/
inductive Call
  | getConsumer (streamName name : String)
  | upsertConsumer (streamName : String) (cfg : ConsumerConfig)
  | deleteConsumer (streamName name : String)
  | apiRequestJSON (subject : String) (data : Bytes)
  deriving DecidableEq, Repr

/-- The connection state together with the log of the calls issued so far. -/
structure Net (σ : Type) where
  srv : σ
  log : List Call

/-- The outcome of running a Go function body: it returns, or it panics. -/
inductive Outcome (α : Type)
  | returned (a : α)
  | panicked (reason : String)
  deriving DecidableEq, Repr

/-- The struct `jetStream`, as far as stream.go uses it: the API prefix and the
method `apiRequestJSON`, one field for each response type it is asked to decode
into. A field returns the decoded response and the error of the round-trip. -/
structure jetStream (σ : Type) where
  apiPrefix : String
  requestStreamInfo : String → Bytes → σ → (streamInfoResponse × Option GoError) × σ
  requestStreamPurge : String → Bytes → σ → (streamPurgeResponse × Option GoError) × σ
  requestMsgGet : String → Bytes → σ → (apiMsgGetResponse × Option GoError) × σ
  requestMsgDelete : String → Bytes → σ → (msgDeleteResponse × Option GoError) × σ

/-- The functions and constants stream.go takes from other files: the consumer
operations of the package (`C` is the type behind the `Consumer` interface), the
subject helpers, `json.Marshal` at the four request types and
`headers.DecodeHeadersMsg`. -/
structure Pkg (σ C : Type) where
  getConsumer : jetStream σ → String → String → σ → (Option C × Option GoError) × σ
  upsertConsumer :
    jetStream σ → String → ConsumerConfig → σ → (Option C × Option GoError) × σ
  deleteConsumer : jetStream σ → String → String → σ → Option GoError × σ
  apiSubj : String → String → String
  apiStreamInfoT : String → String
  apiStreamPurgeT : String → String
  apiMsgGetT : String → String
  apiMsgDeleteT : String → String
  marshalStreamInfoRequest : streamInfoRequest → Bytes × Option GoError
  marshalStreamPurgeRequest : StreamPurgeRequest → Bytes × Option GoError
  marshalMsgGetRequest : apiMsgGetRequest → Bytes × Option GoError
  marshalMsgDeleteRequest : msgDeleteRequest → Bytes × Option GoError
  DecodeHeadersMsg : Bytes → Header × Option GoError

/-- The struct `stream`. -/
structure stream (σ : Type) where
  name : String
  info : Option StreamInfo
  jetStream : jetStream σ

variable {σ C : Type}

/-- A call of `getConsumer`, logged. -/
def getConsumer (p : Pkg σ C) (js : jetStream σ) (streamName name : String) (w : Net σ) :
    (Option C × Option GoError) × Net σ :=
  let r := p.getConsumer js streamName name w.srv
  (r.1, { srv := r.2, log := w.log ++ [Call.getConsumer streamName name] })

/-- A call of `upsertConsumer`, logged. -/
def upsertConsumer (p : Pkg σ C) (js : jetStream σ) (streamName : String) (cfg : ConsumerConfig)
    (w : Net σ) : (Option C × Option GoError) × Net σ :=
  let r := p.upsertConsumer js streamName cfg w.srv
  (r.1, { srv := r.2, log := w.log ++ [Call.upsertConsumer streamName cfg] })

/-- A call of `deleteConsumer`, logged. -/
def deleteConsumer (p : Pkg σ C) (js : jetStream σ) (streamName name : String) (w : Net σ) :
    Option GoError × Net σ :=
  let r := p.deleteConsumer js streamName name w.srv
  (r.1, { srv := r.2, log := w.log ++ [Call.deleteConsumer streamName name] })

/-- The method `(s *stream) Consumer`. -/
def stream.Consumer (p : Pkg σ C) (s : stream σ) (name : String) (w : Net σ) :
    (Option C × Option GoError) × Net σ :=
  getConsumer p s.jetStream s.name name w

/-- The method `(s *stream) DeleteConsumer`. -/
def stream.DeleteConsumer (p : Pkg σ C) (s : stream σ) (name : String) (w : Net σ) :
    Option GoError × Net σ :=
  deleteConsumer p s.jetStream s.name name w

/-- The test `err != nil && !errors.Is(err, ErrConsumerNotFound)`. -/
def lookupAborts : Option GoError → Bool
  | some err => !errorsIs err ErrConsumerNotFound
  | none => false

/-- The method `(s *stream) CreateConsumer`. -/
def stream.CreateConsumer (p : Pkg σ C) (s : stream σ) (cfg : ConsumerConfig) (w : Net σ) :
    (Option C × Option GoError) × Net σ :=
  if cfg.Durable ≠ "" then
    let r := s.Consumer p cfg.Durable w
    if lookupAborts r.1.2 then
      ((none, r.1.2), r.2)
    else if r.1.1.isSome then
      ((none, some (GoError.wrapf ErrConsumerExists cfg.Durable)), r.2)
    else
      upsertConsumer p s.jetStream s.name cfg r.2
  else
    upsertConsumer p s.jetStream s.name cfg w

/-- The method `(s *stream) UpdateConsumer`. -/
def stream.UpdateConsumer (p : Pkg σ C) (s : stream σ) (cfg : ConsumerConfig) (w : Net σ) :
    (Option C × Option GoError) × Net σ :=
  if cfg.Durable ≠ "" then
    let r := s.Consumer p cfg.Durable w
    if r.1.2.isSome then
      ((none, r.1.2), r.2)
    else
      upsertConsumer p s.jetStream s.name cfg r.2
  else
    upsertConsumer p s.jetStream s.name cfg w

/-- A call of `s.jetStream.apiRequestJSON` decoding into a `streamInfoResponse`, logged. -/
def apiRequestStreamInfo (js : jetStream σ) (subject : String) (data : Bytes) (w : Net σ) :
    (streamInfoResponse × Option GoError) × Net σ :=
  let r := js.requestStreamInfo subject data w.srv
  (r.1, { srv := r.2, log := w.log ++ [Call.apiRequestJSON subject data] })

/-- A call of `s.jetStream.apiRequestJSON` decoding into a `streamPurgeResponse`, logged. -/
def apiRequestStreamPurge (js : jetStream σ) (subject : String) (data : Bytes) (w : Net σ) :
    (streamPurgeResponse × Option GoError) × Net σ :=
  let r := js.requestStreamPurge subject data w.srv
  (r.1, { srv := r.2, log := w.log ++ [Call.apiRequestJSON subject data] })

/-- A call of `s.jetStream.apiRequestJSON` decoding into an `apiMsgGetResponse`, logged. -/
def apiRequestMsgGet (js : jetStream σ) (subject : String) (data : Bytes) (w : Net σ) :
    (apiMsgGetResponse × Option GoError) × Net σ :=
  let r := js.requestMsgGet subject data w.srv
  (r.1, { srv := r.2, log := w.log ++ [Call.apiRequestJSON subject data] })

/-- A call of `s.jetStream.apiRequestJSON` decoding into a `msgDeleteResponse`, logged. -/
def apiRequestMsgDelete (js : jetStream σ) (subject : String) (data : Bytes) (w : Net σ) :
    (msgDeleteResponse × Option GoError) × Net σ :=
  let r := js.requestMsgDelete subject data w.srv
  (r.1, { srv := r.2, log := w.log ++ [Call.apiRequestJSON subject data] })

/-- The loop over `opts` in `Info`: the request is allocated at the first
option, and the first failing option ends the loop with its error. -/
def applyInfoOpts : List StreamInfoOpt → Option streamInfoRequest →
    Option streamInfoRequest × Option GoError
  | [], infoReq => (infoReq, none)
  | opt :: rest, infoReq =>
    let cur := match infoReq with
      | some r => r
      | none => { DeletedDetails := false, SubjectFilter := "" }
    match opt cur with
    | (cur1, none) => applyInfoOpts rest (some cur1)
    | (cur1, some err) => (some cur1, some err)

/-- The loop over `opts` in `Purge`. -/
def applyPurgeOpts : List StreamPurgeOpt → StreamPurgeRequest →
    StreamPurgeRequest × Option GoError
  | [], purgeReq => (purgeReq, none)
  | opt :: rest, purgeReq =>
    match opt purgeReq with
    | (cur1, none) => applyPurgeOpts rest cur1
    | (cur1, some err) => (cur1, some err)

/-- The part of `Info` from the computation of the subject on: the request,
then the test of `resp.Error`. -/
def stream.infoRequest (p : Pkg σ C) (s : stream σ) (req : Bytes) (w : Net σ) :
    (Option StreamInfo × Option GoError) × stream σ × Net σ :=
  let infoSubject := p.apiSubj s.jetStream.apiPrefix (p.apiStreamInfoT s.name)
  let r := apiRequestStreamInfo s.jetStream infoSubject req w
  match r.1.2 with
  | some err => ((none, some err), s, r.2)
  | none =>
    match r.1.1.Error with
    | some e =>
      if e.Code = 404 then ((none, some ErrStreamNotFound), s, r.2)
      else ((none, some (GoError.api e)), s, r.2)
    | none => ((r.1.1.StreamInfo, none), s, r.2)

/-- The method `(s *stream) Info`. The receiver is a pointer, so the handle is
part of the result; the body assigns to none of its fields. -/
def stream.Info (p : Pkg σ C) (s : stream σ) (opts : List StreamInfoOpt) (w : Net σ) :
    (Option StreamInfo × Option GoError) × stream σ × Net σ :=
  match applyInfoOpts opts none with
  | (_, some err) => ((none, some err), s, w)
  | (none, none) => s.infoRequest p [] w
  | (some infoReq, none) =>
    match p.marshalStreamInfoRequest infoReq with
    | (_, some err) => ((none, some err), s, w)
    | (req, none) => s.infoRequest p req w

/-- The method `(s *stream) CachedInfo`. -/
def stream.CachedInfo (s : stream σ) : Option StreamInfo :=
  s.info

/-- The method `(s *stream) Purge`. -/
def stream.Purge (p : Pkg σ C) (s : stream σ) (opts : List StreamPurgeOpt) (w : Net σ) :
    Option GoError × Net σ :=
  match applyPurgeOpts opts { Sequence := 0, Subject := "", Keep := 0 } with
  | (_, some err) => (some err, w)
  | (purgeReq, none) =>
    match p.marshalStreamPurgeRequest purgeReq with
    | (_, some err) => (some err, w)
    | (req, none) =>
      let purgeSubject := p.apiSubj s.jetStream.apiPrefix (p.apiStreamPurgeT s.name)
      let r := apiRequestStreamPurge s.jetStream purgeSubject req w
      match r.1.2 with
      | some err => (some err, r.2)
      | none =>
        match r.1.1.Error with
        | some e => (some (GoError.api e), r.2)
        | none => (none, r.2)

/-- The tail of `getMsg`, from `msg := resp.Message` on. Reading `msg.Header`
through a nil `msg` is a nil-pointer dereference. -/
def getMsgDecode (p : Pkg σ C) (resp : apiMsgGetResponse) :
    Outcome (Option RawStreamMsg × Option GoError) :=
  match resp.Message with
  | none => .panicked "invalid memory address or nil pointer dereference"
  | some msg =>
    if msg.Header.length > 0 then
      match p.DecodeHeadersMsg msg.Header with
      | (_, some err) => .returned (none, some err)
      | (hdr, none) =>
        .returned (some { Subject := msg.Subject, Sequence := msg.Sequence, Header := hdr,
                          Data := msg.Data, Time := msg.Time }, none)
    else
      .returned (some { Subject := msg.Subject, Sequence := msg.Sequence, Header := none,
                        Data := msg.Data, Time := msg.Time }, none)

/-- The method `(s *stream) getMsg`. -/
def stream.getMsg (p : Pkg σ C) (s : stream σ) (mreq : apiMsgGetRequest) (w : Net σ) :
    Outcome (Option RawStreamMsg × Option GoError) × Net σ :=
  match p.marshalMsgGetRequest mreq with
  | (_, some err) => (.returned (none, some err), w)
  | (req, none) =>
    let dsSubj := p.apiSubj s.jetStream.apiPrefix (p.apiMsgGetT s.name)
    let r := apiRequestMsgGet s.jetStream dsSubj req w
    match r.1.2 with
    | some err => (.returned (none, some err), r.2)
    | none =>
      match r.1.1.Error with
      | some e =>
        if e.Code = 404 && stringsContains e.Description "message" then
          (.returned (none, some ErrMsgNotFound), r.2)
        else
          (.returned (none, some (GoError.api e)), r.2)
      | none => (getMsgDecode p r.1.1, r.2)

/-- The method `(s *stream) GetMsg`. -/
def stream.GetMsg (p : Pkg σ C) (s : stream σ) (seq : Nat) (w : Net σ) :
    Outcome (Option RawStreamMsg × Option GoError) × Net σ :=
  s.getMsg p { Seq := seq, LastFor := "" } w

/-- The method `(s *stream) GetLastMsgForSubject`. -/
def stream.GetLastMsgForSubject (p : Pkg σ C) (s : stream σ) (subject : String) (w : Net σ) :
    Outcome (Option RawStreamMsg × Option GoError) × Net σ :=
  s.getMsg p { Seq := 0, LastFor := subject } w

/-- The method `(s *stream) DeleteMsg`. When `resp.Success` is false the
variable `err` that is formatted into the message is the nil error of the
round-trip. -/
def stream.DeleteMsg (p : Pkg σ C) (s : stream σ) (seq : Nat) (w : Net σ) :
    Option GoError × Net σ :=
  match p.marshalMsgDeleteRequest { Seq := seq } with
  | (_, some err) => (some err, w)
  | (req, none) =>
    let subj := p.apiSubj s.jetStream.apiPrefix (p.apiMsgDeleteT s.name)
    let r := apiRequestMsgDelete s.jetStream subj req w
    match r.1.2 with
    | some err => (some err, r.2)
    | none =>
      if !r.1.1.Success then
        (some (GoError.wrapf ErrMsgDeleteUnsuccessful fmtNilError), r.2)
      else
        (none, r.2)

/-- The calls issued between the connection state `w` and the later state `w1`. -/
def issuedSince (w w1 : Net σ) : List Call :=
  w1.log.drop w.log.length
/-! ## Scripted environments, used to evaluate the methods on concrete inputs -/

/-- A connection whose four request kinds answer with fixed replies. -/
def scriptedJS (info : streamInfoResponse × Option GoError)
    (purge : streamPurgeResponse × Option GoError)
    (get : apiMsgGetResponse × Option GoError)
    (del : msgDeleteResponse × Option GoError) : jetStream Unit where
  apiPrefix := "$JS.API"
  requestStreamInfo := fun _ _ u => (info, u)
  requestStreamPurge := fun _ _ u => (purge, u)
  requestMsgGet := fun _ _ u => (get, u)
  requestMsgDelete := fun _ _ u => (del, u)

/-- A package environment whose consumer lookup and upsert answer with fixed
results; consumers are represented by their names. -/
def scriptedPkg (lookup upsert : Option String × Option GoError) : Pkg Unit String where
  getConsumer := fun _ _ _ u => (lookup, u)
  upsertConsumer := fun _ _ _ u => (upsert, u)
  deleteConsumer := fun _ _ _ u => (none, u)
  apiSubj := fun pre subj => pre ++ "." ++ subj
  apiStreamInfoT := fun n => "STREAM.INFO." ++ n
  apiStreamPurgeT := fun n => "STREAM.PURGE." ++ n
  apiMsgGetT := fun n => "STREAM.MSG.GET." ++ n
  apiMsgDeleteT := fun n => "STREAM.MSG.DELETE." ++ n
  marshalStreamInfoRequest := fun _ => ([123, 125], none)
  marshalStreamPurgeRequest := fun _ => ([123, 125], none)
  marshalMsgGetRequest := fun _ => ([123, 125], none)
  marshalMsgDeleteRequest := fun _ => ([123, 125], none)
  DecodeHeadersMsg := fun _ => (some [], none)

/-- A connection whose requests all answer with empty envelopes. -/
def quietJS : jetStream Unit :=
  scriptedJS ({ Error := none, StreamInfo := none }, none)
    ({ Error := none, Success := true, Purged := 0 }, none)
    ({ Error := none, Message := none }, none)
    ({ Error := none, Success := true }, none)

/-- A handle on stream `S` over `quietJS`, with nothing cached. -/
def streamS : stream Unit := { name := "S", info := none, jetStream := quietJS }

/-- A configuration with durable name `D`. -/
def cfgD : ConsumerConfig :=
  { Durable := "D", FilterSubject := "", DeliverPolicy := 0, AckPolicy := 0 }

/-- A configuration without durable name. -/
def cfgEphemeral : ConsumerConfig :=
  { Durable := "", FilterSubject := "", DeliverPolicy := 0, AckPolicy := 0 }

/-- The initial connection state: nothing logged. -/
def net0 : Net Unit := { srv := (), log := [] }

/-- A server error that is not a 404. -/
def apiErr500 : APIError := { Code := 500, ErrorCode := 10000, Description := "internal error" }

/-- The 404 the server sends for a missing message. -/
def apiErrNoMessage : APIError :=
  { Code := 404, ErrorCode := 10037, Description := "no message found" }

/-- The 404 the server sends for a missing stream. -/
def apiErrNoStream : APIError :=
  { Code := 404, ErrorCode := 10059, Description := "stream not found" }

/-- The descriptor a stale handle holds. -/
def infoOld : StreamInfo := { Name := "S", Subjects := ["foo"], Msgs := 0 }

/-- The descriptor the server reports now. -/
def infoNew : StreamInfo := { Name := "S", Subjects := ["foo"], Msgs := 7 }

/-- A handle on stream `S` that caches `infoOld`, over a connection whose
stream-info request answers with `infoNew`. -/
def streamStale : stream Unit :=
  { name := "S", info := some infoOld,
    jetStream := scriptedJS ({ Error := none, StreamInfo := some infoNew }, none)
      ({ Error := none, Success := true, Purged := 0 }, none)
      ({ Error := none, Message := none }, none)
      ({ Error := none, Success := true }, none) }

/-- A handle on stream `S` over a connection whose delete request answers with
an envelope that carries an error and a true success flag. -/
def streamDeleteErr : stream Unit :=
  { name := "S", info := none,
    jetStream := scriptedJS ({ Error := none, StreamInfo := none }, none)
      ({ Error := none, Success := true, Purged := 0 }, none)
      ({ Error := none, Message := none }, none)
      ({ Error := some apiErr500, Success := true }, none) }

/-- A handle on stream `S` over a connection whose message-get request answers
with the given envelope. -/
def streamGet (resp : apiMsgGetResponse) : stream Unit :=
  { name := "S", info := none,
    jetStream := scriptedJS ({ Error := none, StreamInfo := none }, none)
      ({ Error := none, Success := true, Purged := 0 }, none)
      (resp, none)
      ({ Error := none, Success := true }, none) }

/-- A handle on stream `S` over a connection whose delete request answers with
the given envelope and round-trip error. -/
def streamDelete (resp : msgDeleteResponse) (err : Option GoError) : stream Unit :=
  { name := "S", info := none,
    jetStream := scriptedJS ({ Error := none, StreamInfo := none }, none)
      ({ Error := none, Success := true, Purged := 0 }, none)
      ({ Error := none, Message := none }, none)
      (resp, err) }

/-- A handle on stream `S` over a connection whose stream-info request answers
with the given envelope. -/
def streamInfoOf (resp : streamInfoResponse) : stream Unit :=
  { name := "S", info := none,
    jetStream := scriptedJS (resp, none)
      ({ Error := none, Success := true, Purged := 0 }, none)
      ({ Error := none, Message := none }, none)
      ({ Error := none, Success := true }, none) }

/-- The package environment used with the handles above. -/
def pkg0 : Pkg Unit String := scriptedPkg (none, some ErrConsumerNotFound) (some "D", none)

end JetStream

/-!
# Reconnect supervisor (sections 3, 4.B, 4.C, 4.D and 6 of the specification)

The repository holds the tests of the reconnect logic (reconnect_test.go) and
not the connection itself. The definitions of this namespace are a sequential
model of the connection written from the specification: one connection, the
server it talks to, and the frames exchanged between them. A frame written to
the socket is handed to the server at once and the messages the server sends
back are dispatched at once.
-/

namespace Reconnect

/-- Modelled from the spec: the type `ConnectionState` of section 3; the
connection itself is not among the sources. -/
inductive ConnectionState
  | DISCONNECTED
  | CONNECTING
  | CONNECTED
  | RECONNECTING
  | CLOSED
  deriving DecidableEq, Repr

/-- Modelled from the spec: the user callbacks of `ConnectionOptions`
(section 3); a callback receives the connection and no error. -/
inductive Callback
  | disconnected
  | reconnected
  | closed
  deriving DecidableEq, Repr

/-- Modelled from the spec: the outbound protocol messages a `PendingFrame`
stands for (section 3: PUB, SUB, UNSUB or PING). UNSUB carries the optional
message count of section 4.C. -/
inductive Frame
  | PUB (subject payload : String)
  | SUB (subject : String) (queue : Option String) (sid : Nat)
  | UNSUB (sid : Nat) (count : Option Nat)
  | PING
  deriving DecidableEq, Repr

/-- Modelled from the spec: `ConnectionOptions` of section 3, without the
durations: the number of server URLs, the allow-reconnect flag, the maximum
number of reconnect attempts (a negative value is infinite) and the capacity of
the Pending Buffer in bytes. -/
structure ConnectionOptions where
  urls : Nat
  allowReconnect : Bool
  maxReconnect : Int
  pendingCapacity : Nat
  deriving DecidableEq, Repr

/-- Modelled from the spec: `Subscription` of section 3. The delivery sink is
represented by the connection's record of sink invocations (`Conn.inbox`). -/
structure Subscription where
  id : Nat
  subject : String
  queue : Option String
  max : Option Nat
  delivered : Nat
  deriving DecidableEq, Repr

/-- Modelled from the spec: one invocation of a delivery sink. -/
structure Delivery where
  sid : Nat
  subject : String
  payload : String
  deriving DecidableEq, Repr

/-- Modelled from the spec: the Subscription Registry of section 4.C, with the
next subscription id (ids are unique and increase within one connection). -/
structure Registry where
  subs : List Subscription
  nextId : Nat
  deriving DecidableEq, Repr

/-- The ids of the live subscriptions. -/
def Registry.ids (r : Registry) : List Nat := r.subs.map (·.id)

/-- Modelled from the spec: the Connection Supervisor of section 4.D with the
Pending Buffer (4.B, the frames it holds in insertion order) and the
Subscription Registry (4.C). `fired` lists the callbacks invoked so far, `inbox`
the sink invocations so far. The specification says of a subscription made
while RECONNECTING both that `add` emits its SUB frame, directly or buffered
(4.C), and that it reaches the server exactly once, through the replay
(invariant 3 of section 8); `replayOnly` selects the reading: when it is true,
SUB and UNSUB frames produced while RECONNECTING are left to the replay, when
it is false they are buffered like every other frame. -/
structure Conn where
  opts : ConnectionOptions
  replayOnly : Bool
  state : ConnectionState
  registry : Registry
  pending : List Frame
  urlsLeft : Nat
  attempts : Nat
  fired : List Callback
  inbox : List Delivery
  deriving DecidableEq, Repr

/-- A subscription without queue group and without delivery limit, as the
tests make them. -/
def Subscription.plain (s : Subscription) : Prop :=
  s.queue = none ∧ s.max = none

/-- The registry of `c1` comes from that of `c` by dispatches: the state is
the same, the ids are a sublist, every subscription continues one of `c` with
the same id, subject and queue, and every subscription of `c` without queue
group and delivery limit is still there, with the same subject and still
without queue group and delivery limit. -/
structure Evolves (c c1 : Conn) : Prop where
  state_eq : c1.state = c.state
  ids_sub : c1.registry.ids.Sublist c.registry.ids
  from_old : ∀ s1 ∈ c1.registry.subs, ∃ s ∈ c.registry.subs,
    s.id = s1.id ∧ s.subject = s1.subject ∧ s.queue = s1.queue
  plain_kept : ∀ s ∈ c.registry.subs, s.plain →
    ∃ s1 ∈ c1.registry.subs, s1.id = s.id ∧ s1.subject = s.subject ∧ s1.plain

end Reconnect

namespace JetStream

variable {σ C : Type}

/-! ## Theorems on the consumer operations -/

theorem issuedSince_append (w : Net σ) (srv : σ) (calls : List Call) :
    issuedSince w { srv := srv, log := w.log ++ calls } = calls := by
  simp [issuedSince]

theorem getConsumer_log (p : Pkg σ C) (js : jetStream σ) (n d : String) (w : Net σ) :
    (getConsumer p js n d w).2.log = w.log ++ [Call.getConsumer n d] := rfl

theorem upsertConsumer_log (p : Pkg σ C) (js : jetStream σ) (n : String) (cfg : ConsumerConfig)
    (w : Net σ) :
    (upsertConsumer p js n cfg w).2.log = w.log ++ [Call.upsertConsumer n cfg] := rfl

/-- C1. When the durable name is non-empty and the lookup `s.Consumer` resolves
to a consumer, `CreateConsumer` returns no consumer and an error that wraps
`ErrConsumerExists`; the only call it issued is the lookup, so no upsert was
issued, and the connection is left in the state the lookup produced. -/
theorem CreateConsumer_existing_durable (p : Pkg σ C) (s : stream σ) (cfg : ConsumerConfig)
    (w : Net σ) (c : C) (hd : cfg.Durable ≠ "")
    (hl : (s.Consumer p cfg.Durable w).1 = (some c, none)) :
    (s.CreateConsumer p cfg w).1.1 = none ∧
    (∃ e, (s.CreateConsumer p cfg w).1.2 = some e ∧ errorsIs e ErrConsumerExists = true) ∧
    issuedSince w (s.CreateConsumer p cfg w).2 = [Call.getConsumer s.name cfg.Durable] ∧
    (∀ n k, Call.upsertConsumer n k ∉ issuedSince w (s.CreateConsumer p cfg w).2) ∧
    (s.CreateConsumer p cfg w).2 = (s.Consumer p cfg.Durable w).2 := by
  have h1 : (s.Consumer p cfg.Durable w).1.1 = some c := by rw [hl]
  have h2 : (s.Consumer p cfg.Durable w).1.2 = none := by rw [hl]
  have hres : s.CreateConsumer p cfg w
      = ((none, some (GoError.wrapf ErrConsumerExists cfg.Durable)),
          (s.Consumer p cfg.Durable w).2) := by
    simp [stream.CreateConsumer, hd, h1, h2, lookupAborts]
  have hiss : issuedSince w (s.Consumer p cfg.Durable w).2
      = [Call.getConsumer s.name cfg.Durable] :=
    issuedSince_append w _ _
  rw [hres]
  simp [hiss, errorsIs, ErrConsumerExists]

/-- C1, evaluated: on stream `S`, where durable `D` exists, creating `D` again
fails with `ErrConsumerExists` after the lookup alone. -/
theorem CreateConsumer_existing_durable_witness :
    cfgD.Durable ≠ "" ∧
    (streamS.CreateConsumer (scriptedPkg (some "D", none) (some "D", none)) cfgD net0).1
      = (none, some (GoError.wrapf ErrConsumerExists "D")) ∧
    issuedSince net0
        (streamS.CreateConsumer (scriptedPkg (some "D", none) (some "D", none)) cfgD net0).2
      = [Call.getConsumer "S" "D"] :=
  have h := CreateConsumer_existing_durable (scriptedPkg (some "D", none) (some "D", none))
    streamS cfgD net0 "D" (by decide) rfl
  ⟨by decide, rfl, h.2.2.1⟩

/-- C2. For a non-empty durable name: (1) when the lookup fails with an error
that is not `ErrConsumerNotFound`, `CreateConsumer` returns exactly that error,
no consumer, and issues no upsert; (2) when the lookup returns no consumer and
an error that is `ErrConsumerNotFound`, the result of `CreateConsumer` is the
result of `upsertConsumer` for the same stream name and configuration, run
after the lookup; (3) for a lookup that follows the result convention of
`getConsumer` (no consumer only together with an error), an upsert is issued
only when the lookup returned `ErrConsumerNotFound`. -/
theorem CreateConsumer_lookup_gate (p : Pkg σ C) (s : stream σ) (cfg : ConsumerConfig)
    (w : Net σ) (hd : cfg.Durable ≠ "") :
    (∀ e, (s.Consumer p cfg.Durable w).1.2 = some e → errorsIs e ErrConsumerNotFound = false →
      (s.CreateConsumer p cfg w).1 = (none, some e) ∧
      (s.CreateConsumer p cfg w).2 = (s.Consumer p cfg.Durable w).2 ∧
      ∀ n k, Call.upsertConsumer n k ∉ issuedSince w (s.CreateConsumer p cfg w).2) ∧
    (∀ e, (s.Consumer p cfg.Durable w).1 = (none, some e) →
      errorsIs e ErrConsumerNotFound = true →
      s.CreateConsumer p cfg w
        = upsertConsumer p s.jetStream s.name cfg (s.Consumer p cfg.Durable w).2) ∧
    (((s.Consumer p cfg.Durable w).1.1 = none → (s.Consumer p cfg.Durable w).1.2 ≠ none) →
      ∀ n k, Call.upsertConsumer n k ∈ issuedSince w (s.CreateConsumer p cfg w).2 →
        ∃ e, (s.Consumer p cfg.Durable w).1.2 = some e ∧
          errorsIs e ErrConsumerNotFound = true) := by
  have hiss : issuedSince w (s.Consumer p cfg.Durable w).2
      = [Call.getConsumer s.name cfg.Durable] :=
    issuedSince_append w _ _
  refine ⟨?_, ?_, ?_⟩
  · intro e he hne
    have hres : s.CreateConsumer p cfg w = ((none, some e), (s.Consumer p cfg.Durable w).2) := by
      simp [stream.CreateConsumer, hd, he, lookupAborts, hne]
    rw [hres]
    simp [hiss]
  · intro e hl hnf
    have h1 : (s.Consumer p cfg.Durable w).1.1 = none := by rw [hl]
    have h2 : (s.Consumer p cfg.Durable w).1.2 = some e := by rw [hl]
    simp [stream.CreateConsumer, hd, h1, h2, lookupAborts, hnf]
  · intro hconv n k hmem
    cases hab : lookupAborts (s.Consumer p cfg.Durable w).1.2 with
    | true =>
      have hres : s.CreateConsumer p cfg w
          = ((none, (s.Consumer p cfg.Durable w).1.2), (s.Consumer p cfg.Durable w).2) := by
        simp [stream.CreateConsumer, hd, hab]
      rw [hres] at hmem
      simp [hiss] at hmem
    | false =>
      cases hc : (s.Consumer p cfg.Durable w).1.1 with
      | some c =>
        have hres : s.CreateConsumer p cfg w
            = ((none, some (GoError.wrapf ErrConsumerExists cfg.Durable)),
                (s.Consumer p cfg.Durable w).2) := by
          simp [stream.CreateConsumer, hd, hab, hc]
        rw [hres] at hmem
        simp [hiss] at hmem
      | none =>
        cases he : (s.Consumer p cfg.Durable w).1.2 with
        | none => exact absurd he (hconv hc)
        | some e =>
          refine ⟨e, rfl, ?_⟩
          rw [he] at hab
          simpa [lookupAborts] using hab

/-- C2, evaluated: on stream `S` without durable `D`, the lookup answers
`ErrConsumerNotFound` and `CreateConsumer` returns what the upsert returns,
after the two calls lookup and upsert. -/
theorem CreateConsumer_lookup_gate_witness :
    cfgD.Durable ≠ "" ∧
    streamS.CreateConsumer (scriptedPkg (none, some ErrConsumerNotFound) (some "D", none)) cfgD
        net0
      = upsertConsumer (scriptedPkg (none, some ErrConsumerNotFound) (some "D", none))
          streamS.jetStream streamS.name cfgD
          (streamS.Consumer (scriptedPkg (none, some ErrConsumerNotFound) (some "D", none))
            cfgD.Durable net0).2 ∧
    (streamS.CreateConsumer (scriptedPkg (none, some ErrConsumerNotFound) (some "D", none)) cfgD
        net0).1 = (some "D", none) :=
  ⟨by decide,
   (CreateConsumer_lookup_gate (scriptedPkg (none, some ErrConsumerNotFound) (some "D", none))
      streamS cfgD net0 (by decide)).2.1 ErrConsumerNotFound rfl (by decide),
   rfl⟩

/-- C3, as stated, fails for a configuration without durable name: on stream
`S`, in an environment where every lookup fails with `ErrConsumerNotFound`,
`UpdateConsumer` issues the upsert as its only call, without any lookup, and
returns the consumer the upsert produced. -/
theorem UpdateConsumer_empty_durable_counterexample :
    issuedSince net0
        (streamS.UpdateConsumer (scriptedPkg (none, some ErrConsumerNotFound) (some "new", none))
          cfgEphemeral net0).2
      = [Call.upsertConsumer "S" cfgEphemeral] ∧
    (∀ n d, Call.getConsumer n d ∉ issuedSince net0
        (streamS.UpdateConsumer (scriptedPkg (none, some ErrConsumerNotFound) (some "new", none))
          cfgEphemeral net0).2) ∧
    (streamS.UpdateConsumer (scriptedPkg (none, some ErrConsumerNotFound) (some "new", none))
        cfgEphemeral net0).1 = (some "new", none) := by
  refine ⟨rfl, ?_, rfl⟩
  intro n d h
  have h2 : issuedSince net0
        (streamS.UpdateConsumer (scriptedPkg (none, some ErrConsumerNotFound) (some "new", none))
          cfgEphemeral net0).2
      = [Call.upsertConsumer "S" cfgEphemeral] := rfl
  rw [h2] at h
  simp at h

/-- C3, amended. For a configuration whose durable name is non-empty,
`UpdateConsumer` first looks the durable up on the stream: when the lookup
returns an error, `UpdateConsumer` returns that error, no consumer, and issues
no upsert; when the lookup returns no error, the result is the result of
`upsertConsumer` run after the lookup; so an upsert is issued only after a
lookup that succeeded. For a configuration with an empty durable name no lookup
is made and the result is the result of `upsertConsumer`. -/
theorem UpdateConsumer_lookup_gate (p : Pkg σ C) (s : stream σ) (cfg : ConsumerConfig)
    (w : Net σ) :
    (cfg.Durable ≠ "" →
      (∀ e, (s.Consumer p cfg.Durable w).1.2 = some e →
        (s.UpdateConsumer p cfg w).1 = (none, some e) ∧
        (s.UpdateConsumer p cfg w).2 = (s.Consumer p cfg.Durable w).2 ∧
        ∀ n k, Call.upsertConsumer n k ∉ issuedSince w (s.UpdateConsumer p cfg w).2) ∧
      ((s.Consumer p cfg.Durable w).1.2 = none →
        s.UpdateConsumer p cfg w
          = upsertConsumer p s.jetStream s.name cfg (s.Consumer p cfg.Durable w).2) ∧
      (∀ n k, Call.upsertConsumer n k ∈ issuedSince w (s.UpdateConsumer p cfg w).2 →
        (s.Consumer p cfg.Durable w).1.2 = none ∧
        issuedSince w (s.UpdateConsumer p cfg w).2
          = [Call.getConsumer s.name cfg.Durable, Call.upsertConsumer s.name cfg])) ∧
    (cfg.Durable = "" →
      s.UpdateConsumer p cfg w = upsertConsumer p s.jetStream s.name cfg w) := by
  have hiss : issuedSince w (s.Consumer p cfg.Durable w).2
      = [Call.getConsumer s.name cfg.Durable] :=
    issuedSince_append w _ _
  refine ⟨fun hd => ⟨?_, ?_, ?_⟩, ?_⟩
  · intro e he
    have hres : s.UpdateConsumer p cfg w = ((none, some e), (s.Consumer p cfg.Durable w).2) := by
      simp [stream.UpdateConsumer, hd, he]
    rw [hres]
    simp [hiss]
  · intro he
    simp [stream.UpdateConsumer, hd, he]
  · intro n k hmem
    cases he : (s.Consumer p cfg.Durable w).1.2 with
    | some e =>
      have hres : s.UpdateConsumer p cfg w
          = ((none, some e), (s.Consumer p cfg.Durable w).2) := by
        simp [stream.UpdateConsumer, hd, he]
      rw [hres] at hmem
      simp [hiss] at hmem
    | none =>
      have hres : s.UpdateConsumer p cfg w
          = upsertConsumer p s.jetStream s.name cfg (s.Consumer p cfg.Durable w).2 := by
        simp [stream.UpdateConsumer, hd, he]
      refine ⟨rfl, ?_⟩
      rw [hres]
      have hlog : (upsertConsumer p s.jetStream s.name cfg (s.Consumer p cfg.Durable w).2).2.log
          = w.log ++ [Call.getConsumer s.name cfg.Durable, Call.upsertConsumer s.name cfg] := by
        rw [upsertConsumer_log]
        simp [stream.Consumer, getConsumer_log]
      simp [issuedSince, hlog]
  · intro hd
    simp [stream.UpdateConsumer, hd]

/-- C3 amended, evaluated: on stream `S` without durable `D`, `UpdateConsumer`
returns the lookup error `ErrConsumerNotFound` and issues the lookup only. -/
theorem UpdateConsumer_lookup_gate_witness :
    cfgD.Durable ≠ "" ∧
    (streamS.UpdateConsumer (scriptedPkg (none, some ErrConsumerNotFound) (some "D", none)) cfgD
        net0).1 = (none, some ErrConsumerNotFound) ∧
    issuedSince net0
        (streamS.UpdateConsumer (scriptedPkg (none, some ErrConsumerNotFound) (some "D", none))
          cfgD net0).2
      = [Call.getConsumer "S" "D"] :=
  have h := ((UpdateConsumer_lookup_gate
    (scriptedPkg (none, some ErrConsumerNotFound) (some "D", none)) streamS cfgD net0).1
      (by decide)).1 ErrConsumerNotFound rfl
  ⟨by decide, h.1, rfl⟩

/-! ## Theorems on the stream operations -/

/-- The result of `getMsg` when the decoded response carries an error. -/
theorem getMsg_on_error (p : Pkg σ C) (s : stream σ) (mreq : apiMsgGetRequest) (w : Net σ)
    (req : Bytes) (resp : apiMsgGetResponse) (e : APIError)
    (hm : p.marshalMsgGetRequest mreq = (req, none))
    (hr : (apiRequestMsgGet s.jetStream
      (p.apiSubj s.jetStream.apiPrefix (p.apiMsgGetT s.name)) req w).1 = (resp, none))
    (he : resp.Error = some e) :
    (s.getMsg p mreq w).1 = Outcome.returned (none, some
      (if e.Code = 404 ∧ stringsContains e.Description "message" = true
        then ErrMsgNotFound else GoError.api e)) := by
  have h1 : (apiRequestMsgGet s.jetStream
      (p.apiSubj s.jetStream.apiPrefix (p.apiMsgGetT s.name)) req w).1.2 = none := by rw [hr]
  have h2 : (apiRequestMsgGet s.jetStream
      (p.apiSubj s.jetStream.apiPrefix (p.apiMsgGetT s.name)) req w).1.1 = resp := by rw [hr]
  unfold stream.getMsg
  simp only [hm, h1, h2, he]
  by_cases hc : e.Code = 404 ∧ stringsContains e.Description "message" = true
  · simp [hc]
  · rw [if_neg hc]
    have : (decide (e.Code = 404) && stringsContains e.Description "message") = false := by
      rcases not_and_or.mp hc with h | h
      · simp [h]
      · simp [h]
    simp [this]

/-- The three facts about the error `getMsg` selects. -/
theorem getMsg_error_cases (e : APIError) :
    ((if e.Code = 404 ∧ stringsContains e.Description "message" = true
        then ErrMsgNotFound else GoError.api e) = ErrMsgNotFound
      ↔ (e.Code = 404 ∧ stringsContains e.Description "message" = true)) ∧
    (¬ (e.Code = 404 ∧ stringsContains e.Description "message" = true) →
      (if e.Code = 404 ∧ stringsContains e.Description "message" = true
        then ErrMsgNotFound else GoError.api e) = GoError.api e) ∧
    (if e.Code = 404 ∧ stringsContains e.Description "message" = true
        then ErrMsgNotFound else GoError.api e) ≠ ErrStreamNotFound := by
  by_cases hc : e.Code = 404 ∧ stringsContains e.Description "message" = true
  · simp [hc, ErrMsgNotFound, ErrStreamNotFound]
  · simp [hc, ErrMsgNotFound, ErrStreamNotFound]

/-- C4. For `GetMsg` and for `GetLastMsgForSubject`: when the request is
encoded, the round-trip succeeds and the decoded response carries an error `e`,
the operation returns no message and an error `err`; `err` is `ErrMsgNotFound`
exactly when `e.Code` is 404 and `e.Description` contains "message"; in every
other case `err` is the API error `e` itself; and `err` is never
`ErrStreamNotFound`. -/
theorem GetMsg_error_demux (p : Pkg σ C) (s : stream σ) (w : Net σ) (mreq : apiMsgGetRequest)
    (req : Bytes) (resp : apiMsgGetResponse) (e : APIError)
    (hm : p.marshalMsgGetRequest mreq = (req, none))
    (hr : (apiRequestMsgGet s.jetStream
      (p.apiSubj s.jetStream.apiPrefix (p.apiMsgGetT s.name)) req w).1 = (resp, none))
    (he : resp.Error = some e) :
    (∀ seq, mreq = { Seq := seq, LastFor := "" } →
      ∃ err, (s.GetMsg p seq w).1 = Outcome.returned (none, some err) ∧
        (err = ErrMsgNotFound ↔
          (e.Code = 404 ∧ stringsContains e.Description "message" = true)) ∧
        (¬ (e.Code = 404 ∧ stringsContains e.Description "message" = true) →
          err = GoError.api e) ∧
        err ≠ ErrStreamNotFound) ∧
    (∀ subject, mreq = { Seq := 0, LastFor := subject } →
      ∃ err, (s.GetLastMsgForSubject p subject w).1 = Outcome.returned (none, some err) ∧
        (err = ErrMsgNotFound ↔
          (e.Code = 404 ∧ stringsContains e.Description "message" = true)) ∧
        (¬ (e.Code = 404 ∧ stringsContains e.Description "message" = true) →
          err = GoError.api e) ∧
        err ≠ ErrStreamNotFound) := by
  have hg := getMsg_on_error p s mreq w req resp e hm hr he
  have hcases := getMsg_error_cases e
  refine ⟨?_, ?_⟩
  · intro seq hq
    subst hq
    exact ⟨_, hg, hcases⟩
  · intro subject hq
    subst hq
    exact ⟨_, hg, hcases⟩

/-- C4, evaluated: for a missing message (404, "no message found") `GetMsg`
returns `ErrMsgNotFound`. -/
theorem GetMsg_error_demux_witness :
    (streamGet { Error := some apiErrNoMessage, Message := none }).GetMsg pkg0 7 net0
      = (Outcome.returned (none, some ErrMsgNotFound),
          { srv := (), log := [Call.apiRequestJSON "$JS.API.STREAM.MSG.GET.S" [123, 125]] }) ∧
    ∃ err, ((streamGet { Error := some apiErrNoMessage, Message := none }).GetMsg pkg0 7 net0).1
        = Outcome.returned (none, some err) ∧
      (err = ErrMsgNotFound ↔
        (apiErrNoMessage.Code = 404 ∧
          stringsContains apiErrNoMessage.Description "message" = true)) ∧
      (¬ (apiErrNoMessage.Code = 404 ∧
          stringsContains apiErrNoMessage.Description "message" = true) →
        err = GoError.api apiErrNoMessage) ∧
      err ≠ ErrStreamNotFound :=
  ⟨rfl,
   (GetMsg_error_demux pkg0 (streamGet { Error := some apiErrNoMessage, Message := none }) net0
      { Seq := 7, LastFor := "" } [123, 125] { Error := some apiErrNoMessage, Message := none }
      apiErrNoMessage rfl rfl rfl).1 7 rfl⟩

/-- The request `Info` sends: the encoding of the request the options built, or
nothing when there are no options. -/
theorem Info_reduces (p : Pkg σ C) (s : stream σ) (opts : List StreamInfoOpt) (w : Net σ)
    (oreq : Option streamInfoRequest) (req : Bytes)
    (ho : applyInfoOpts opts none = (oreq, none))
    (hm : (oreq = none ∧ req = []) ∨
      (∃ r, oreq = some r ∧ p.marshalStreamInfoRequest r = (req, none))) :
    s.Info p opts w = s.infoRequest p req w := by
  unfold stream.Info
  rcases hm with ⟨h1, h2⟩ | ⟨r, h1, h2⟩
  · subst h1
    subst h2
    simp [ho]
  · subst h1
    simp [ho, h2]

/-- C5. For `Info`, when the options apply, the request is encoded and the
round-trip succeeds with decoded response `resp`: if `resp` carries an error
with code 404 the result is `ErrStreamNotFound` and no descriptor; if it
carries an error `e` with another code the result is the API error `e` and no
descriptor; if it carries no error the result is `resp.StreamInfo` and a nil
error. -/
theorem Info_result (p : Pkg σ C) (s : stream σ) (opts : List StreamInfoOpt) (w : Net σ)
    (oreq : Option streamInfoRequest) (req : Bytes) (resp : streamInfoResponse)
    (ho : applyInfoOpts opts none = (oreq, none))
    (hm : (oreq = none ∧ req = []) ∨
      (∃ r, oreq = some r ∧ p.marshalStreamInfoRequest r = (req, none)))
    (hr : (apiRequestStreamInfo s.jetStream
      (p.apiSubj s.jetStream.apiPrefix (p.apiStreamInfoT s.name)) req w).1 = (resp, none)) :
    (∀ e, resp.Error = some e → e.Code = 404 →
      (s.Info p opts w).1 = (none, some ErrStreamNotFound)) ∧
    (∀ e, resp.Error = some e → e.Code ≠ 404 →
      (s.Info p opts w).1 = (none, some (GoError.api e))) ∧
    (resp.Error = none → (s.Info p opts w).1 = (resp.StreamInfo, none)) := by
  have h1 : (apiRequestStreamInfo s.jetStream
      (p.apiSubj s.jetStream.apiPrefix (p.apiStreamInfoT s.name)) req w).1.2 = none := by rw [hr]
  have h2 : (apiRequestStreamInfo s.jetStream
      (p.apiSubj s.jetStream.apiPrefix (p.apiStreamInfoT s.name)) req w).1.1 = resp := by rw [hr]
  rw [Info_reduces p s opts w oreq req ho hm]
  unfold stream.infoRequest
  simp only [h1, h2]
  refine ⟨?_, ?_, ?_⟩
  · intro e he hc
    simp [he, hc]
  · intro e he hc
    simp [he, hc]
  · intro he
    simp [he]

/-- C5, evaluated: a 404 from the server makes `Info` return
`ErrStreamNotFound`. -/
theorem Info_result_witness :
    ((streamInfoOf { Error := some apiErrNoStream, StreamInfo := none }).Info pkg0 [] net0).1
      = (none, some ErrStreamNotFound) :=
  (Info_result pkg0 (streamInfoOf { Error := some apiErrNoStream, StreamInfo := none }) [] net0
    none [] { Error := some apiErrNoStream, StreamInfo := none } rfl (Or.inl ⟨rfl, rfl⟩) rfl).1
    apiErrNoStream rfl (by decide)

/-- C6. For every sequence number, when the delete request is encoded: if the
round-trip succeeds and the decoded `Success` flag is false, `DeleteMsg`
returns an error that wraps `ErrMsgDeleteUnsuccessful`; if the round-trip
succeeds and the flag is true, it returns nil; if the round-trip fails, it
returns the round-trip error. -/
theorem DeleteMsg_result (p : Pkg σ C) (s : stream σ) (seq : Nat) (w : Net σ) (req : Bytes)
    (resp : msgDeleteResponse) (rerr : Option GoError)
    (hm : p.marshalMsgDeleteRequest { Seq := seq } = (req, none))
    (hr : (apiRequestMsgDelete s.jetStream
      (p.apiSubj s.jetStream.apiPrefix (p.apiMsgDeleteT s.name)) req w).1 = (resp, rerr)) :
    (rerr = none → resp.Success = false →
      ∃ err, (s.DeleteMsg p seq w).1 = some err ∧
        errorsIs err ErrMsgDeleteUnsuccessful = true) ∧
    (rerr = none → resp.Success = true → (s.DeleteMsg p seq w).1 = none) ∧
    (∀ err, rerr = some err → (s.DeleteMsg p seq w).1 = some err) := by
  have h1 : (apiRequestMsgDelete s.jetStream
      (p.apiSubj s.jetStream.apiPrefix (p.apiMsgDeleteT s.name)) req w).1.2 = rerr := by rw [hr]
  have h2 : (apiRequestMsgDelete s.jetStream
      (p.apiSubj s.jetStream.apiPrefix (p.apiMsgDeleteT s.name)) req w).1.1 = resp := by rw [hr]
  unfold stream.DeleteMsg
  simp only [hm, h1, h2]
  refine ⟨?_, ?_, ?_⟩
  · intro hn hs
    subst hn
    simp [hs, errorsIs, ErrMsgDeleteUnsuccessful]
  · intro hn hs
    subst hn
    simp [hs]
  · intro err he
    subst he
    simp

/-- C6, evaluated: a response with a false success flag makes `DeleteMsg`
return an error wrapping `ErrMsgDeleteUnsuccessful`. -/
theorem DeleteMsg_result_witness :
    ((streamDelete { Error := none, Success := false } none).DeleteMsg pkg0 7 net0).1
      = some (GoError.wrapf ErrMsgDeleteUnsuccessful fmtNilError) ∧
    ∃ err, ((streamDelete { Error := none, Success := false } none).DeleteMsg pkg0 7 net0).1
        = some err ∧ errorsIs err ErrMsgDeleteUnsuccessful = true :=
  ⟨rfl,
   (DeleteMsg_result pkg0 (streamDelete { Error := none, Success := false } none) 7 net0
      [123, 125] { Error := none, Success := false } none rfl rfl).1 rfl rfl⟩

/-- When the decoded response of the round-trip carries an error, `Info`,
`Purge` and `getMsg` (so `GetMsg` and `GetLastMsgForSubject`) return a non-nil
error, whatever the payload fields of the response hold. -/
theorem envelope_error_surfaced (p : Pkg σ C) (s : stream σ) (w : Net σ) (e : APIError) :
    (∀ opts oreq req resp, applyInfoOpts opts none = (oreq, none) →
      ((oreq = none ∧ req = []) ∨
        (∃ r, oreq = some r ∧ p.marshalStreamInfoRequest r = (req, none))) →
      (apiRequestStreamInfo s.jetStream
        (p.apiSubj s.jetStream.apiPrefix (p.apiStreamInfoT s.name)) req w).1 = (resp, none) →
      resp.Error = some e → (s.Info p opts w).1.2 ≠ none) ∧
    (∀ opts preq req resp,
      applyPurgeOpts opts { Sequence := 0, Subject := "", Keep := 0 } = (preq, none) →
      p.marshalStreamPurgeRequest preq = (req, none) →
      (apiRequestStreamPurge s.jetStream
        (p.apiSubj s.jetStream.apiPrefix (p.apiStreamPurgeT s.name)) req w).1 = (resp, none) →
      resp.Error = some e → (s.Purge p opts w).1 = some (GoError.api e)) ∧
    (∀ mreq req resp, p.marshalMsgGetRequest mreq = (req, none) →
      (apiRequestMsgGet s.jetStream
        (p.apiSubj s.jetStream.apiPrefix (p.apiMsgGetT s.name)) req w).1 = (resp, none) →
      resp.Error = some e →
      ∃ err, (s.getMsg p mreq w).1 = Outcome.returned (none, some err)) := by
  refine ⟨?_, ?_, ?_⟩
  · intro opts oreq req resp ho hm hr he
    have h1 : (apiRequestStreamInfo s.jetStream
        (p.apiSubj s.jetStream.apiPrefix (p.apiStreamInfoT s.name)) req w).1.2 = none := by
      rw [hr]
    have h2 : (apiRequestStreamInfo s.jetStream
        (p.apiSubj s.jetStream.apiPrefix (p.apiStreamInfoT s.name)) req w).1.1 = resp := by
      rw [hr]
    rw [Info_reduces p s opts w oreq req ho hm]
    unfold stream.infoRequest
    simp only [h1, h2, he]
    by_cases hc : e.Code = 404
    · simp [hc]
    · simp [hc]
  · intro opts preq req resp ho hm hr he
    have h1 : (apiRequestStreamPurge s.jetStream
        (p.apiSubj s.jetStream.apiPrefix (p.apiStreamPurgeT s.name)) req w).1.2 = none := by
      rw [hr]
    have h2 : (apiRequestStreamPurge s.jetStream
        (p.apiSubj s.jetStream.apiPrefix (p.apiStreamPurgeT s.name)) req w).1.1 = resp := by
      rw [hr]
    unfold stream.Purge
    simp only [ho, hm, h1, h2, he]
  · intro mreq req resp hm hr he
    exact ⟨_, getMsg_on_error p s mreq w req resp e hm hr he⟩

/-- C7. On a decoded delete response that carries an error (code 500) together
with a true `success` flag, `DeleteMsg` returns a nil error: it reads the
`Success` flag and never tests `resp.Error`. The one call it issued is the
delete request. -/
theorem DeleteMsg_ignores_envelope_error :
    streamDeleteErr.DeleteMsg pkg0 7 net0
      = (none, { srv := (), log := [Call.apiRequestJSON "$JS.API.STREAM.MSG.DELETE.S"
          [123, 125]] }) ∧
    (streamDeleteErr.jetStream.requestMsgDelete "$JS.API.STREAM.MSG.DELETE.S" [123, 125] ()).1
      = ({ Error := some apiErr500, Success := true }, none) :=
  ⟨rfl, rfl⟩

/-- C8, as stated, fails: on a handle that caches `infoOld`, `Info` succeeds
and returns the descriptor `infoNew` the server reports, and `CachedInfo` on
the handle after the call still returns `infoOld`. -/
theorem CachedInfo_stale_counterexample :
    (streamStale.Info pkg0 [] net0).1 = (some infoNew, none) ∧
    (streamStale.Info pkg0 [] net0).2.1.CachedInfo = some infoOld ∧
    some infoOld ≠ some infoNew := by
  refine ⟨rfl, rfl, ?_⟩
  decide

/-- C8, amended. `CachedInfo` returns the `info` field of the handle and takes
no connection state, so it performs no request; `Info` leaves the handle as it
was, whatever it returns: `CachedInfo` after a call to `Info` returns what it
returned before the call. -/
theorem CachedInfo_unchanged_by_Info (p : Pkg σ C) (s : stream σ) (opts : List StreamInfoOpt)
    (w : Net σ) :
    s.CachedInfo = s.info ∧
    (s.Info p opts w).2.1 = s ∧
    (s.Info p opts w).2.1.CachedInfo = s.CachedInfo := by
  have hreq : ∀ req, (s.infoRequest p req w).2.1 = s := by
    intro req
    unfold stream.infoRequest
    simp only []
    split
    · rfl
    · split
      · split <;> rfl
      · rfl
  have hs : (s.Info p opts w).2.1 = s := by
    unfold stream.Info
    split
    · rfl
    · exact hreq _
    · split
      · rfl
      · exact hreq _
  exact ⟨rfl, hs, by rw [hs]⟩

/-- The tail of `getMsg` on a stored message whose headers blob is empty: the
result has a nil `Header` and the `Subject`, `Sequence`, `Data` and `Time` of
the stored message. -/
theorem getMsgDecode_empty_header (p : Pkg σ C) (resp : apiMsgGetResponse) (msg : storedMsg)
    (hmsg : resp.Message = some msg) (hh : msg.Header = []) :
    getMsgDecode p resp = Outcome.returned
      (some { Subject := msg.Subject, Sequence := msg.Sequence, Header := none,
              Data := msg.Data, Time := msg.Time }, none) := by
  simp [getMsgDecode, hmsg, hh]

/-- The tail of `getMsg` returns whenever the message is present. -/
theorem getMsgDecode_present (p : Pkg σ C) (resp : apiMsgGetResponse) (msg : storedMsg)
    (hmsg : resp.Message = some msg) :
    ∃ r, getMsgDecode p resp = Outcome.returned r := by
  unfold getMsgDecode
  simp only [hmsg]
  split
  · split
    · exact ⟨_, rfl⟩
    · exact ⟨_, rfl⟩
  · exact ⟨_, rfl⟩

/-- After a successful round-trip whose response carries no error and a
stored message with an empty headers blob, `getMsg` returns a `RawStreamMsg`
with a nil `Header` and the `Subject`, `Sequence`, `Data` and `Time` of the
stored message, and a nil error. -/
theorem getMsg_empty_header (p : Pkg σ C) (s : stream σ) (mreq : apiMsgGetRequest) (w : Net σ)
    (req : Bytes) (resp : apiMsgGetResponse) (msg : storedMsg)
    (hm : p.marshalMsgGetRequest mreq = (req, none))
    (hr : (apiRequestMsgGet s.jetStream
      (p.apiSubj s.jetStream.apiPrefix (p.apiMsgGetT s.name)) req w).1 = (resp, none))
    (he : resp.Error = none) (hmsg : resp.Message = some msg) (hh : msg.Header = []) :
    (s.getMsg p mreq w).1 = Outcome.returned
      (some { Subject := msg.Subject, Sequence := msg.Sequence, Header := none,
              Data := msg.Data, Time := msg.Time }, none) := by
  have h1 : (apiRequestMsgGet s.jetStream
      (p.apiSubj s.jetStream.apiPrefix (p.apiMsgGetT s.name)) req w).1.2 = none := by rw [hr]
  have h2 : (apiRequestMsgGet s.jetStream
      (p.apiSubj s.jetStream.apiPrefix (p.apiMsgGetT s.name)) req w).1.1 = resp := by rw [hr]
  unfold stream.getMsg
  simp only [hm, h1, h2, he]
  exact getMsgDecode_empty_header p resp msg hmsg hh

/-- After a successful round-trip whose response carries no error and a
stored message, `getMsg` returns. -/
theorem getMsg_present_returns (p : Pkg σ C) (s : stream σ) (mreq : apiMsgGetRequest)
    (w : Net σ) (req : Bytes) (resp : apiMsgGetResponse) (msg : storedMsg)
    (hm : p.marshalMsgGetRequest mreq = (req, none))
    (hr : (apiRequestMsgGet s.jetStream
      (p.apiSubj s.jetStream.apiPrefix (p.apiMsgGetT s.name)) req w).1 = (resp, none))
    (he : resp.Error = none) (hmsg : resp.Message = some msg) :
    ∃ r, (s.getMsg p mreq w).1 = Outcome.returned r := by
  have h1 : (apiRequestMsgGet s.jetStream
      (p.apiSubj s.jetStream.apiPrefix (p.apiMsgGetT s.name)) req w).1.2 = none := by rw [hr]
  have h2 : (apiRequestMsgGet s.jetStream
      (p.apiSubj s.jetStream.apiPrefix (p.apiMsgGetT s.name)) req w).1.1 = resp := by rw [hr]
  unfold stream.getMsg
  simp only [hm, h1, h2, he]
  exact getMsgDecode_present p resp msg hmsg

/-- C10. On a decoded response that carries neither an error nor a message,
after a successful round-trip, `GetMsg` does not return: it dereferences the
nil message and panics. -/
theorem GetMsg_nil_message_panics :
    ((streamGet { Error := none, Message := none }).GetMsg pkg0 7 net0).1
      = Outcome.panicked "invalid memory address or nil pointer dereference" ∧
    ((streamGet { Error := none, Message := none }).jetStream.requestMsgGet
        "$JS.API.STREAM.MSG.GET.S" [123, 125] ()).1
      = ({ Error := none, Message := none }, none) :=
  ⟨rfl, rfl⟩

end JetStream

namespace Reconnect

/-! ## Messages received change the registry and the inbox only -/

theorem Evolves.rfl (c : Conn) : Evolves c c where
  state_eq := Eq.refl _
  ids_sub := List.Sublist.refl _
  from_old := fun s hs => ⟨s, hs, Eq.refl _, Eq.refl _, Eq.refl _⟩
  plain_kept := fun s hs hp => ⟨s, hs, Eq.refl _, Eq.refl _, hp⟩

end Reconnect
